import Mathlib

/-!
Shallow embedding of the Save-a-penny procurement backend
(`backend/purchase_requests/`): `models.py`, `serializers.py`,
`permissions.py`, `views.py` and `document_processing.py`.

Conventions of the embedding:
* Money is kept in integer cents: the source stores two-decimal-place
  `DecimalField`s, and an integer quantity times a cent amount is exact.
* Timestamps (`timezone.now()`) are a `Nat` tick passed to each operation.
* JSON metadata blobs are structures keeping exactly the fields the
  workflow inspects (the success flag, the error tag, the stored text
  slice); the content produced by the external services (pdfplumber,
  pytesseract, the OpenAI structuring calls) is abstracted: the outcome
  of each external call is an input carried by `PipelineEnv`, of type
  `Except String String` (payload or raised error message).
* A Django view that answers an error response before reaching a save is
  `Except.error`: nothing is committed.  Wrappers named `...DB` give the
  persisted state after the call (unchanged on an error response).
* The per-request aggregate (the row plus its `items` and `approvals`)
  is one structure: requests are independent aggregates in the source.
-/

namespace SaveAPenny

/-- models.UserRole: role choices `staff`, `approver_level_1`,
`approver_level_2`, `finance`. -/
inductive Role
  | staff
  | approverL1
  | approverL2
  | finance
deriving DecidableEq, Repr

/-- A Django `User` together with the `hasattr(user, 'profile')` test and
the profile's role: `profile = none` models a user without a profile. -/
structure UserT where
  id : Nat
  profile : Option Role
deriving DecidableEq, Repr

/-- models.RequestStatus: `pending`, `approved`, `rejected`. -/
inductive RequestStatus
  | pending
  | approved
  | rejected
deriving DecidableEq, Repr

/-- models.Approval: one row of the `approvals` table.  `approved` is the
tri-state decision column (`True`=Approved, `False`=Rejected,
`None`=Pending), exactly as in the source. -/
structure Approval where
  approverLevel : Nat
  approver : Nat
  approved : Option Bool
  comments : String
  reviewedAt : Option Nat
deriving DecidableEq, Repr

/-- models.RequestItem: one row of `request_items`; prices in cents. -/
structure RequestItem where
  itemName : String
  description : String
  quantity : Nat
  unitPrice : Nat
  totalPrice : Nat
deriving DecidableEq, Repr

/-- document_processing.extract_proforma_metadata_with_ai result shape:
`extracted` flag, optional `error` tag, stored `raw_text` slice. -/
structure ProformaMetadata where
  extracted : Bool
  error : Option String
  rawText : String
deriving DecidableEq, Repr

/-- document_processing.generate_purchase_order result shape:
`generated` flag and optional `error` tag. -/
structure POMetadata where
  generated : Bool
  error : Option String
deriving DecidableEq, Repr

/-- document_processing.validate_receipt_against_po result shape:
`validated` flag, optional `error` tag, stored `receipt_text` slice. -/
structure ReceiptValidation where
  validated : Bool
  error : Option String
  receiptText : String
deriving DecidableEq, Repr

/-- models.PurchaseRequest aggregate: the row plus its owned `items` and
`approvals`.  File fields keep only the stored file name. -/
structure PurchaseRequest where
  title : String
  description : String
  amount : Nat
  status : RequestStatus
  createdBy : Nat
  proforma : Option String
  proformaMetadata : Option ProformaMetadata
  purchaseOrderMetadata : Option POMetadata
  receipt : Option String
  receiptValidation : Option ReceiptValidation
  approvedAt : Option Nat
  rejectedAt : Option Nat
  items : List RequestItem
  approvals : List Approval
deriving DecidableEq, Repr

/-- An uploaded file: name, size in bytes, declared content type. -/
structure UploadedFile where
  name : String
  size : Nat
  contentType : String
deriving DecidableEq, Repr

deriving instance DecidableEq for Except

/-- Outcomes of the external calls made by `document_processing.py` during
one operation: whether the OpenAI client is configured, the pdfplumber
and pytesseract results, and the three OpenAI structuring call results
(`Except.error` models a raised exception; the `ok` payload is the raw
JSON content, whose structure the workflow never inspects). -/
structure PipelineEnv where
  clientConfigured : Bool
  pdfExtract : Except String String
  imageExtract : Except String String
  proformaAI : Except String String
  poAI : Except String String
  receiptAI : Except String String
deriving DecidableEq, Repr

/-! ## document_processing.py -/

/-- Python `str.strip()`: drop leading and trailing whitespace
(character-list implementation, so that concrete runs reduce). -/
def pyStrip (s : String) : String :=
  String.mk (((s.toList.dropWhile Char.isWhitespace).reverse.dropWhile
    Char.isWhitespace).reverse)

/-- Python slicing `text[:n]`: the first `n` characters. -/
def pySlice (s : String) (n : Nat) : String :=
  String.mk (s.toList.take n)

/-- document_processing.extract_text_from_pdf: pdfplumber text, stripped;
a raised exception is caught and yields the empty string. -/
def extract_text_from_pdf (result : Except String String) : String :=
  match result with
  | .ok text => pyStrip text
  | .error _ => ""

/-- document_processing.extract_text_from_image: pytesseract text,
stripped; a raised exception is caught and yields the empty string. -/
def extract_text_from_image (result : Except String String) : String :=
  match result with
  | .ok text => pyStrip text
  | .error _ => ""

/-- document_processing.extract_text_from_file: dispatch on the file's
content type; `application/pdf` goes to the PDF extractor, the three
image types go to OCR, anything else yields the empty string. -/
def extract_text_from_file (env : PipelineEnv) (contentType : String) : String :=
  if contentType = "application/pdf" then
    extract_text_from_pdf env.pdfExtract
  else if contentType = "image/jpeg" ∨ contentType = "image/png" ∨
      contentType = "image/jpg" then
    extract_text_from_image env.imageExtract
  else ""

/-- document_processing.extract_proforma_metadata_with_ai: without a
configured client, or on a raised exception, returns the failure-tagged
object; on success tags `extracted := true` and keeps the first 500
characters of the text. -/
def extract_proforma_metadata_with_ai (env : PipelineEnv) (text : String) :
    ProformaMetadata :=
  if env.clientConfigured = false then
    { extracted := false, error := some "OpenAI API key not configured", rawText := "" }
  else
    match env.proformaAI with
    | .ok _ => { extracted := true, error := none, rawText := pySlice text 500 }
    | .error e => { extracted := false, error := some e, rawText := pySlice text 500 }

/-- document_processing.process_proforma_upload: extract text, then ask
the AI stage; empty text short-circuits into a failure tag. -/
def process_proforma_upload (env : PipelineEnv) (contentType : String) :
    ProformaMetadata :=
  let text := extract_text_from_file env contentType
  if text = "" then
    { extracted := false, error := some "Could not extract text from file", rawText := "" }
  else
    extract_proforma_metadata_with_ai env text

/-- document_processing.generate_purchase_order: without a configured
client, or on a raised exception, returns the failure-tagged object;
on success tags `generated := true`.  (The request snapshot and proforma
metadata only feed the AI prompt, which the embedding abstracts.) -/
def generate_purchase_order (env : PipelineEnv) : POMetadata :=
  if env.clientConfigured = false then
    { generated := false, error := some "OpenAI API key not configured" }
  else
    match env.poAI with
    | .ok _ => { generated := true, error := none }
    | .error e => { generated := false, error := some e }

/-- document_processing.validate_receipt_against_po: without a configured
client, or on a raised exception, returns the failure-tagged object; on
success tags `validated := true` and keeps the first 500 characters of
the receipt text.  (The PO metadata only feeds the AI prompt.) -/
def validate_receipt_against_po (env : PipelineEnv) (receiptText : String) :
    ReceiptValidation :=
  if env.clientConfigured = false then
    { validated := false, error := some "OpenAI API key not configured", receiptText := "" }
  else
    match env.receiptAI with
    | .ok _ =>
      { validated := true, error := none, receiptText := pySlice receiptText 500 }
    | .error e =>
      { validated := false, error := some e, receiptText := pySlice receiptText 500 }

/-- document_processing.process_receipt_upload: extract text from the
receipt, then validate it against the PO; empty text short-circuits into
a failure tag. -/
def process_receipt_upload (env : PipelineEnv) (contentType : String) :
    ReceiptValidation :=
  let text := extract_text_from_file env contentType
  if text = "" then
    { validated := false, error := some "Could not extract text from receipt", receiptText := "" }
  else
    validate_receipt_against_po env text

/-! ## models.py helpers -/

/-- models.RequestItem.save: recomputes `total_price = quantity *
unit_price` before every write. -/
def RequestItem.saveRow (itemName description : String)
    (quantity unitPrice : Nat) : RequestItem :=
  { itemName := itemName, description := description, quantity := quantity,
    unitPrice := unitPrice, totalPrice := quantity * unitPrice }

/-- models.PurchaseRequest.can_be_edited_by: owner, pending, staff role. -/
def can_be_edited_by (pr : PurchaseRequest) (user : UserT) : Bool :=
  pr.createdBy == user.id && pr.status == RequestStatus.pending &&
    user.profile == some Role.staff

/-- permissions.IsAnyApprover.has_permission: profile role is approver_level_1
or approver_level_2. -/
def IsAnyApprover (user : UserT) : Bool :=
  match user.profile with
  | some r => r == Role.approverL1 || r == Role.approverL2
  | none => false

/-- views.ApproverRequestViewSet.approve_request role dispatch: role
approver_level_1 acts at level 1, approver_level_2 at level 2, any other
role is not an approver. -/
def roleLevel : Role → Option Nat
  | Role.approverL1 => some 1
  | Role.approverL2 => some 2
  | _ => none

/-- The `Approval.objects.filter(purchase_request=pr, approver_level=lvl)
.first()` query of approve_request: first approvals row at the level. -/
def findApproval (pr : PurchaseRequest) (lvl : Nat) : Option Approval :=
  pr.approvals.find? (fun a => a.approverLevel == lvl)

/-- Decision already recorded at a level: `existing_approval.approved`
when the row exists (`none` covers both a missing row and an undecided
row, exactly the `existing and existing.approved is not None` test). -/
def priorDecision (pr : PurchaseRequest) (lvl : Nat) : Option Bool :=
  match findApproval pr lvl with
  | some a => a.approved
  | none => none

/-- The `Approval.objects.filter(purchase_request=pr, approver_level=1,
approved=True)` existence query used by the level-order check and by the
full-approval re-check. -/
def hasLevel1Approved (pr : PurchaseRequest) : Bool :=
  pr.approvals.any (fun a => a.approverLevel == 1 && a.approved == some true)

/-- Replaces the first list element satisfying `p` by its image under
`f`; models a `.first()` query followed by `.save()` on the found row. -/
def updateFirst (p : α → Bool) (f : α → α) : List α → List α
  | [] => []
  | x :: xs => if p x then f x :: xs else x :: updateFirst p f xs

/-- The create-or-update block of approve_request: update the existing
row at the level, or create the row, with the decision, comments,
reviewer and `reviewed_at = now`. -/
def setApproval (now : Nat) (user : UserT) (lvl : Nat) (approved : Bool)
    (comments : String) (pr : PurchaseRequest) : PurchaseRequest :=
  let upd : Approval → Approval := fun a =>
    { a with approved := some approved, comments := comments, reviewedAt := some now }
  match findApproval pr lvl with
  | some _ =>
    { pr with approvals := updateFirst (fun a => a.approverLevel == lvl) upd pr.approvals }
  | none =>
    { pr with approvals := pr.approvals ++
        [{ approverLevel := lvl, approver := user.id, approved := some approved,
           comments := comments, reviewedAt := some now }] }

/-! ## views.py: approver endpoints -/

/-- Error responses of the approve/reject endpoints.  `notPending` is the
400 answer "Can only approve pending requests"; `alreadyDecided` is the
400 answer naming the prior decision and the level; `levelOrderViolation`
is the 400 answer "Level 1 approval is required before Level 2 can
approve"; `notApprover` is the in-view 403 "User is not an approver";
`profileNotFound` the 400 "User profile not found"; `permissionDenied`
the 403 raised by the `IsAnyApprover` permission class before the view
body runs. -/
inductive ApproveError
  | permissionDenied
  | notPending
  | profileNotFound
  | notApprover
  | alreadyDecided (prior : Bool) (level : Nat)
  | levelOrderViolation
deriving DecidableEq, Repr

/-- The `transaction.atomic()` block of approve_request: write the
approval row, then update the request status.  A rejection at any level
makes the request Rejected with `rejected_at = now`; a level-2 approval
re-checks level 1 and, when it holds, makes the request Approved with
`approved_at = now` and attempts PO generation, storing the result only
when `po_data.get('generated')` is truthy. -/
def applyDecision (env : PipelineEnv) (now : Nat) (user : UserT) (lvl : Nat)
    (approved : Bool) (comments : String) (pr : PurchaseRequest) :
    PurchaseRequest :=
  let pr1 := setApproval now user lvl approved comments pr
  if approved = false then
    { pr1 with status := RequestStatus.rejected, rejectedAt := some now }
  else if lvl = 2 then
    if hasLevel1Approved pr1 then
      let pr2 := { pr1 with status := RequestStatus.approved, approvedAt := some now }
      let poData := generate_purchase_order env
      if poData.generated then
        { pr2 with purchaseOrderMetadata := some poData }
      else pr2
    else pr1
  else pr1

/-- views.ApproverRequestViewSet.approve_request body, in source order:
status check, profile check, role-to-level dispatch, already-decided
check, level-order check for level 2, then the atomic decision block. -/
def approve_request (env : PipelineEnv) (now : Nat) (user : UserT)
    (approved : Bool) (comments : String) (pr : PurchaseRequest) :
    Except ApproveError PurchaseRequest :=
  if pr.status ≠ RequestStatus.pending then .error .notPending
  else
    match user.profile with
    | none => .error .profileNotFound
    | some role =>
      match roleLevel role with
      | none => .error .notApprover
      | some lvl =>
        match priorDecision pr lvl with
        | some prior => .error (.alreadyDecided prior lvl)
        | none =>
          if lvl = 2 ∧ hasLevel1Approved pr = false then
            .error .levelOrderViolation
          else
            .ok (applyDecision env now user lvl approved comments pr)

/-- The approve/reject endpoint as reached over HTTP: the `IsAnyApprover`
permission class runs before the view body. -/
def submitDecision (env : PipelineEnv) (now : Nat) (user : UserT)
    (approved : Bool) (comments : String) (pr : PurchaseRequest) :
    Except ApproveError PurchaseRequest :=
  if IsAnyApprover user then approve_request env now user approved comments pr
  else .error .permissionDenied

/-- views.ApproverRequestViewSet.reject_request: reuses the approve logic
with `approved = False`. -/
def reject_request (env : PipelineEnv) (now : Nat) (user : UserT)
    (comments : String) (pr : PurchaseRequest) :
    Except ApproveError PurchaseRequest :=
  submitDecision env now user false comments pr

/-- Persisted state after a decision call: unchanged when the endpoint
answers an error response. -/
def submitDecisionDB (env : PipelineEnv) (now : Nat) (user : UserT)
    (approved : Bool) (comments : String) (pr : PurchaseRequest) :
    PurchaseRequest :=
  match submitDecision env now user approved comments pr with
  | .ok pr' => pr'
  | .error _ => pr

/-! ## views.py / serializers.py: staff endpoints -/

/-- Input of one item in the create/update payload. -/
structure ItemData where
  itemName : String
  description : String
  quantity : Nat
  unitPrice : Nat
deriving DecidableEq, Repr

/-- Create payload of PurchaseRequestCreateSerializer. -/
structure CreateData where
  title : String
  description : String
  amount : Nat
  proforma : Option UploadedFile
  items : List ItemData
deriving DecidableEq, Repr

/-- Validation failures of the create serializer: `validate_amount`
rejects a non-positive amount; the nested item serializer's model
validators reject quantity below 1 and unit price below 0.01. -/
inductive CreateError
  | invalidAmount
  | invalidItem
deriving DecidableEq, Repr

/-- PurchaseRequestCreateSerializer.create plus
StaffRequestViewSet.perform_create: validate, persist the request with
its items (each item written through `RequestItem.save`), then process
the proforma when present and store the (possibly failure-tagged)
metadata.  The processing call is wrapped in try/except in the source;
the embedded pipeline is total, so the stored result is always the
pipeline's object. -/
def create_request (env : PipelineEnv) (userId : Nat) (d : CreateData) :
    Except CreateError PurchaseRequest :=
  if d.amount = 0 then .error .invalidAmount
  else if d.items.any (fun i => i.quantity == 0 || i.unitPrice == 0) then
    .error .invalidItem
  else
    let pr0 : PurchaseRequest :=
      { title := d.title, description := d.description, amount := d.amount,
        status := RequestStatus.pending, createdBy := userId,
        proforma := d.proforma.map (fun f => f.name),
        proformaMetadata := none, purchaseOrderMetadata := none,
        receipt := none, receiptValidation := none,
        approvedAt := none, rejectedAt := none,
        items := d.items.map (fun i =>
          RequestItem.saveRow i.itemName i.description i.quantity i.unitPrice),
        approvals := [] }
    match d.proforma with
    | some f =>
      .ok { pr0 with proformaMetadata := some (process_proforma_upload env f.contentType) }
    | none => .ok pr0

/-- Update payload of PurchaseRequestUpdateSerializer (absent fields are
left as they are; `items = some l` replaces the item set wholesale). -/
structure UpdateData where
  title : Option String
  description : Option String
  amount : Option Nat
  proforma : Option UploadedFile
  items : Option (List ItemData)
deriving DecidableEq, Repr

/-- Error responses of the staff update endpoint: the view's 403 for a
non-owner / non-pending / non-staff edit, the serializer's 400 for a
non-pending request, and the item validators. -/
inductive UpdateError
  | forbidden
  | notPendingEdit
  | invalidAmount
  | invalidItem
deriving DecidableEq, Repr

/-- StaffRequestViewSet.update plus PurchaseRequestUpdateSerializer:
`can_be_edited_by` gate, the serializer's pending check, field updates,
then wholesale item replacement when items are provided (delete all,
recreate each through `RequestItem.save`). -/
def update_request (user : UserT) (d : UpdateData) (pr : PurchaseRequest) :
    Except UpdateError PurchaseRequest :=
  if can_be_edited_by pr user = false then .error .forbidden
  else if pr.status ≠ RequestStatus.pending then .error .notPendingEdit
  else if d.amount = some 0 then .error .invalidAmount
  else if (d.items.getD []).any (fun i => i.quantity == 0 || i.unitPrice == 0) then
    .error .invalidItem
  else
    let pr1 : PurchaseRequest :=
      { pr with
        title := d.title.getD pr.title,
        description := d.description.getD pr.description,
        amount := d.amount.getD pr.amount,
        proforma := d.proforma.elim pr.proforma (fun f => some f.name) }
    match d.items with
    | some its =>
      .ok { pr1 with items := its.map (fun i =>
              RequestItem.saveRow i.itemName i.description i.quantity i.unitPrice) }
    | none => .ok pr1

/-- Error responses of the submit-receipt endpoint: the 400 "Can only
submit receipt for approved requests" status gate, and the receipt
serializer's size and content-type validators. -/
inductive ReceiptError
  | notApproved
  | fileTooLarge
  | badFileType
deriving DecidableEq, Repr

/-- Content types accepted by ReceiptSubmissionSerializer. -/
def allowedReceiptTypes : List String :=
  ["application/pdf", "image/jpeg", "image/png", "image/jpg"]

/-- StaffRequestViewSet.submit_receipt: status gate, file validation,
store the receipt, then — only when stored PO metadata is present
(`purchase_order_metadata or {}` is truthy) — run the receipt pipeline
and store its (possibly failure-tagged) result, and save.  With no PO
metadata the validation step is skipped and `receipt_validation` is left
as it was. -/
def submit_receipt (env : PipelineEnv) (f : UploadedFile)
    (pr : PurchaseRequest) : Except ReceiptError PurchaseRequest :=
  if pr.status ≠ RequestStatus.approved then .error .notApproved
  else if f.size > 10485760 then .error .fileTooLarge
  else if f.contentType ∉ allowedReceiptTypes then .error .badFileType
  else
    let pr1 := { pr with receipt := some f.name }
    match pr.purchaseOrderMetadata with
    | some _ =>
      .ok { pr1 with receiptValidation := some (process_receipt_upload env f.contentType) }
    | none => .ok pr1

/-- Persisted state after a submit-receipt call: unchanged when the
endpoint answers an error response. -/
def submitReceiptDB (env : PipelineEnv) (f : UploadedFile)
    (pr : PurchaseRequest) : PurchaseRequest :=
  match submit_receipt env f pr with
  | .ok pr' => pr'
  | .error _ => pr

/-! ## Reachable states -/

/-- One mutation of an existing request aggregate through the exposed
endpoints: a successful decision, edit, or receipt submission.  The
environment and clock are chosen per call. -/
inductive Step : PurchaseRequest → PurchaseRequest → Prop
  | decide (env : PipelineEnv) (now : Nat) (user : UserT) (approved : Bool)
      (comments : String) {pr pr' : PurchaseRequest} :
      submitDecision env now user approved comments pr = .ok pr' → Step pr pr'
  | edit (user : UserT) (d : UpdateData) {pr pr' : PurchaseRequest} :
      update_request user d pr = .ok pr' → Step pr pr'
  | receipt (env : PipelineEnv) (f : UploadedFile) {pr pr' : PurchaseRequest} :
      submit_receipt env f pr = .ok pr' → Step pr pr'

/-- A request aggregate state reachable through the endpoints: created by
the staff create endpoint, then mutated by any sequence of steps. -/
inductive Reachable : PurchaseRequest → Prop
  | created (env : PipelineEnv) (userId : Nat) (d : CreateData)
      {pr : PurchaseRequest} :
      create_request env userId d = .ok pr → Reachable pr
  | stepped {pr pr' : PurchaseRequest} :
      Reachable pr → Step pr pr' → Reachable pr'

/-! ## Concrete scenario data -/

/-- An environment in which no external call can succeed: the OpenAI
client is not configured and both extractors raise. -/
def envDown : PipelineEnv :=
  { clientConfigured := false, pdfExtract := .error "io error",
    imageExtract := .error "io error", proformaAI := .error "down",
    poAI := .error "down", receiptAI := .error "down" }

/-- An environment in which every external call succeeds. -/
def envUp : PipelineEnv :=
  { clientConfigured := true, pdfExtract := .ok "proforma text",
    imageExtract := .ok "receipt text", proformaAI := .ok "json",
    poAI := .ok "json", receiptAI := .ok "json" }

/-- An environment with working text extraction but a failing AI
structuring capability. -/
def envAIDown : PipelineEnv :=
  { clientConfigured := true, pdfExtract := .ok "proforma text",
    imageExtract := .ok "receipt text", proformaAI := .error "service unavailable",
    poAI := .error "service unavailable", receiptAI := .error "service unavailable" }

def staffUser : UserT := ⟨1, some Role.staff⟩

def approver1 : UserT := ⟨2, some Role.approverL1⟩

def approver2 : UserT := ⟨3, some Role.approverL2⟩

def financeUser : UserT := ⟨4, some Role.finance⟩

/-- Create payload of the demonstration scenario: items
(qty 2, 10.00) and (qty 1, 5.00), in cents. -/
def demoCreate : CreateData :=
  { title := "Office hardware", description := "two laptops", amount := 2500,
    proforma := none,
    items := [⟨"Laptop", "dev laptop", 2, 1000⟩, ⟨"Mouse", "", 1, 500⟩] }

/-- The freshly created pending request of the demonstration scenario. -/
def prPending : PurchaseRequest :=
  { title := "Office hardware", description := "two laptops", amount := 2500,
    status := RequestStatus.pending, createdBy := 1, proforma := none,
    proformaMetadata := none, purchaseOrderMetadata := none,
    receipt := none, receiptValidation := none, approvedAt := none,
    rejectedAt := none,
    items := [⟨"Laptop", "dev laptop", 2, 1000, 2000⟩, ⟨"Mouse", "", 1, 500, 500⟩],
    approvals := [] }

/-- The demonstration request after a level-1 approval at tick 1. -/
def prL1Approved : PurchaseRequest :=
  { prPending with approvals := [⟨1, 2, some true, "ok", some 1⟩] }

/-- The demonstration request after a level-1 rejection at tick 1. -/
def prRejected : PurchaseRequest :=
  { prPending with
      status := RequestStatus.rejected, rejectedAt := some 1,
      approvals := [⟨1, 2, some false, "no", some 1⟩] }

/-- The demonstration request after the level-2 approval at tick 2 in
`envDown`: fully approved, with no PO metadata stored because the PO
generation stage failed. -/
def prApprovedNoPO : PurchaseRequest :=
  { prPending with
      status := RequestStatus.approved, approvedAt := some 2,
      approvals := [⟨1, 2, some true, "ok", some 1⟩, ⟨2, 3, some true, "go", some 2⟩] }

/-- A valid receipt upload of the demonstration scenario. -/
def demoReceipt : UploadedFile := ⟨"receipt.pdf", 2048, "application/pdf"⟩

/-- A proforma upload of the demonstration scenario. -/
def proformaFile : UploadedFile := ⟨"proforma.pdf", 4096, "application/pdf"⟩

/-- The create payload with a proforma document attached. -/
def demoCreateP : CreateData := { demoCreate with proforma := some proformaFile }

/-- The request created from `demoCreateP` under `envDown`: creation
commits and the proforma metadata carries the failure tag of the failed
text extraction. -/
def prProforma : PurchaseRequest :=
  { prPending with
      proforma := some "proforma.pdf",
      proformaMetadata := some ⟨false, some "Could not extract text from file", ""⟩ }

/-- An environment whose OCR returns the text "hello". -/
def envJpg : PipelineEnv := { envUp with imageExtract := Except.ok "hello" }

/-- Whether an endpoint call succeeded (a 2xx response). -/
def isOkE : Except ε α → Bool
  | .ok _ => true
  | .error _ => false

/-- The approval levels recorded on a request, in row order. -/
def levelSet (pr : PurchaseRequest) : List Nat :=
  pr.approvals.map (fun a => a.approverLevel)

/-- The spec's terminal-state invariant: an Approved request has its
`approved_at` set and approving rows at both levels, a Rejected request
has its `rejected_at` set and at least one rejecting row. -/
def statusInvariant (pr : PurchaseRequest) : Prop :=
  (pr.status = RequestStatus.approved →
    pr.approvedAt ≠ none ∧
    pr.approvals.any (fun a => a.approverLevel == 1 && a.approved == some true) = true ∧
    pr.approvals.any (fun a => a.approverLevel == 2 && a.approved == some true) = true) ∧
  (pr.status = RequestStatus.rejected →
    pr.rejectedAt ≠ none ∧
    pr.approvals.any (fun a => a.approved == some false) = true)

/-! ## List lemmas about `updateFirst` -/

theorem updateFirst_map {α β : Type} (g : α → β) (p : α → Bool) (f : α → α)
    (h : ∀ x, g (f x) = g x) (l : List α) :
    (updateFirst p f l).map g = l.map g := by
  induction l with
  | nil => rfl
  | cons x xs ih =>
    by_cases hp : p x = true
    · simp [updateFirst, hp, h]
    · simp [updateFirst, hp, ih]

theorem any_updateFirst {α : Type} (p q : α → Bool) (f : α → α)
    (h : ∀ x, p x = true → q (f x) = q x) (l : List α) :
    (updateFirst p f l).any q = l.any q := by
  induction l with
  | nil => rfl
  | cons x xs ih =>
    by_cases hp : p x = true
    · simp [updateFirst, hp, h x hp]
    · simp [updateFirst, hp, ih]

theorem any_updateFirst_found {α : Type} (p q : α → Bool) (f : α → α)
    (h : ∀ x, p x = true → q (f x) = true) :
    ∀ l : List α, l.any p = true → (updateFirst p f l).any q = true := by
  intro l
  induction l with
  | nil => intro hl; simp at hl
  | cons x xs ih =>
    intro hl
    by_cases hp : p x = true
    · simp [updateFirst, hp, h x hp]
    · have hxs : xs.any p = true := by
        rcases List.any_eq_true.mp hl with ⟨a, ha, hpa⟩
        rcases List.mem_cons.mp ha with ha | ha
        · exact absurd (ha ▸ hpa) hp
        · exact List.any_eq_true.mpr ⟨a, ha, hpa⟩
      simp [updateFirst, hp, ih hxs]

theorem updateFirst_find_self {α : Type} (p : α → Bool) (f : α → α)
    (h : ∀ x, p x = true → p (f x) = true) :
    ∀ l : List α, ∀ a, l.find? p = some a →
      (updateFirst p f l).find? p = some (f a) := by
  intro l
  induction l with
  | nil => intro a ha; simp at ha
  | cons x xs ih =>
    intro a ha
    by_cases hp : p x = true
    · have hxa : x = a := by simpa [List.find?, hp] using ha
      subst hxa
      simp [updateFirst, hp, List.find?, h x hp]
    · have hxs : xs.find? p = some a := by simpa [List.find?, hp] using ha
      simp [updateFirst, hp, List.find?, ih a hxs]

theorem updateFirst_find_other {α : Type} (p q : α → Bool) (f : α → α)
    (h : ∀ x, p x = true → q x = false ∧ q (f x) = false) :
    ∀ l : List α, (updateFirst p f l).find? q = l.find? q := by
  intro l
  induction l with
  | nil => rfl
  | cons x xs ih =>
    by_cases hp : p x = true
    · obtain ⟨h1, h2⟩ := h x hp
      simp [updateFirst, hp, List.find?, h1, h2]
    · cases hq : q x with
      | true => simp [updateFirst, hp, List.find?, hq]
      | false => simp [updateFirst, hp, List.find?, hq, ih]

theorem find_append_singleton_false {α : Type} {p : α → Bool} {a : α}
    (h : p a = false) (l : List α) :
    (l ++ [a]).find? p = l.find? p := by
  induction l with
  | nil => simp [List.find?, h]
  | cons x xs ih => cases hx : p x <;> simp [List.find?, hx, ih]

/-! ## Lemmas about `setApproval` and `applyDecision` -/

theorem setApproval_fields (now : Nat) (user : UserT) (lvl : Nat) (b : Bool)
    (c : String) (pr : PurchaseRequest) :
    (setApproval now user lvl b c pr).status = pr.status ∧
    (setApproval now user lvl b c pr).approvedAt = pr.approvedAt ∧
    (setApproval now user lvl b c pr).rejectedAt = pr.rejectedAt ∧
    (setApproval now user lvl b c pr).items = pr.items ∧
    (setApproval now user lvl b c pr).purchaseOrderMetadata = pr.purchaseOrderMetadata ∧
    (setApproval now user lvl b c pr).receiptValidation = pr.receiptValidation := by
  cases h : findApproval pr lvl <;> simp [setApproval, h]

theorem setApproval_levels_update {pr : PurchaseRequest} {lvl : Nat} {a : Approval}
    (h : findApproval pr lvl = some a) (now : Nat) (user : UserT) (b : Bool)
    (c : String) :
    levelSet (setApproval now user lvl b c pr) = levelSet pr := by
  simp only [setApproval, h, levelSet]
  apply updateFirst_map
  intro x
  rfl

theorem setApproval_levels_append {pr : PurchaseRequest} {lvl : Nat}
    (h : findApproval pr lvl = none) (now : Nat) (user : UserT) (b : Bool)
    (c : String) :
    levelSet (setApproval now user lvl b c pr) = levelSet pr ++ [lvl] := by
  simp [setApproval, h, levelSet]

theorem setApproval_any_decided (now : Nat) (user : UserT) (lvl : Nat)
    (b : Bool) (c : String) (pr : PurchaseRequest) :
    (setApproval now user lvl b c pr).approvals.any
      (fun x => x.approverLevel == lvl && x.approved == some b) = true := by
  cases h : findApproval pr lvl with
  | some a =>
    have h' : pr.approvals.find? (fun x => x.approverLevel == lvl) = some a := h
    simp only [setApproval, h]
    refine any_updateFirst_found _ _ _ ?_ _ ?_
    · intro x hx
      have hxl : x.approverLevel = lvl := by simpa using hx
      simp [hxl]
    · have hpa : (a.approverLevel == lvl) = true := by
        simpa using List.find?_some h'
      exact List.any_eq_true.mpr ⟨a, List.mem_of_find?_eq_some h', hpa⟩
  | none =>
    simp [setApproval, h]

theorem hasLevel1Approved_setApproval_two (now : Nat) (user : UserT)
    (b : Bool) (c : String) (pr : PurchaseRequest) :
    hasLevel1Approved (setApproval now user 2 b c pr) = hasLevel1Approved pr := by
  cases h : findApproval pr 2 with
  | some a =>
    simp only [setApproval, h, hasLevel1Approved]
    refine any_updateFirst _ _ _ ?_ _
    intro x hx
    have hxl : x.approverLevel = 2 := by simpa using hx
    simp [hxl]
  | none =>
    simp [setApproval, h, hasLevel1Approved]

theorem applyDecision_approvals (env : PipelineEnv) (now : Nat) (user : UserT)
    (lvl : Nat) (b : Bool) (c : String) (pr : PurchaseRequest) :
    (applyDecision env now user lvl b c pr).approvals =
      (setApproval now user lvl b c pr).approvals := by
  cases b with
  | false => simp [applyDecision]
  | true =>
    by_cases hl : lvl = 2
    · subst hl
      by_cases h1 : hasLevel1Approved (setApproval now user 2 true c pr) = true
      · by_cases hg : (generate_purchase_order env).generated = true <;>
          simp [applyDecision, h1, hg]
      · simp [applyDecision, h1]
    · simp [applyDecision, hl]

theorem applyDecision_items (env : PipelineEnv) (now : Nat) (user : UserT)
    (lvl : Nat) (b : Bool) (c : String) (pr : PurchaseRequest) :
    (applyDecision env now user lvl b c pr).items = pr.items := by
  have hi := (setApproval_fields now user lvl b c pr).2.2.2.1
  cases b with
  | false => simpa [applyDecision] using hi
  | true =>
    by_cases hl : lvl = 2
    · subst hl
      by_cases h1 : hasLevel1Approved (setApproval now user 2 true c pr) = true
      · by_cases hg : (generate_purchase_order env).generated = true <;>
          simp [applyDecision, h1, hg, hi]
      · simp [applyDecision, h1, hi]
    · simp [applyDecision, hl, hi]

theorem applyDecision_reject (env : PipelineEnv) (now : Nat) (user : UserT)
    (lvl : Nat) (c : String) (pr : PurchaseRequest) :
    applyDecision env now user lvl false c pr =
      { setApproval now user lvl false c pr with
          status := RequestStatus.rejected, rejectedAt := some now } := by
  simp [applyDecision]

theorem applyDecision_reject_status (env : PipelineEnv) (now : Nat)
    (user : UserT) (lvl : Nat) (c : String) (pr : PurchaseRequest) :
    (applyDecision env now user lvl false c pr).status = RequestStatus.rejected ∧
    (applyDecision env now user lvl false c pr).rejectedAt = some now := by
  rw [applyDecision_reject]
  exact ⟨rfl, rfl⟩

theorem applyDecision_approve_l1 (env : PipelineEnv) (now : Nat) (user : UserT)
    (c : String) (pr : PurchaseRequest) :
    applyDecision env now user 1 true c pr = setApproval now user 1 true c pr := by
  simp [applyDecision]

theorem applyDecision_approve_l2 (env : PipelineEnv) (now : Nat) (user : UserT)
    (c : String) (pr : PurchaseRequest)
    (h : hasLevel1Approved (setApproval now user 2 true c pr) = true) :
    (applyDecision env now user 2 true c pr).status = RequestStatus.approved ∧
    (applyDecision env now user 2 true c pr).approvedAt = some now := by
  by_cases hg : (generate_purchase_order env).generated = true <;>
    simp [applyDecision, h, hg]

theorem applyDecision_po_failure (env : PipelineEnv) (now : Nat) (user : UserT)
    (lvl : Nat) (b : Bool) (c : String) (pr : PurchaseRequest)
    (hg : (generate_purchase_order env).generated = false) :
    (applyDecision env now user lvl b c pr).purchaseOrderMetadata =
      pr.purchaseOrderMetadata := by
  have hpo := (setApproval_fields now user lvl b c pr).2.2.2.2.1
  cases b with
  | false => simpa [applyDecision] using hpo
  | true =>
    by_cases hl : lvl = 2
    · subst hl
      by_cases h1 : hasLevel1Approved (setApproval now user 2 true c pr) = true
      · simp [applyDecision, h1, hg, hpo]
      · simp [applyDecision, h1, hpo]
    · simp [applyDecision, hl, hpo]

theorem applyDecision_status_cases (env : PipelineEnv) (now : Nat) (user : UserT)
    (lvl : Nat) (b : Bool) (c : String) (pr : PurchaseRequest) :
    (applyDecision env now user lvl b c pr).status = RequestStatus.rejected ∨
    (applyDecision env now user lvl b c pr).status = RequestStatus.approved ∨
    (applyDecision env now user lvl b c pr).status = pr.status := by
  have hst := (setApproval_fields now user lvl b c pr).1
  cases b with
  | false => simp [applyDecision]
  | true =>
    by_cases hl : lvl = 2
    · subst hl
      by_cases h1 : hasLevel1Approved (setApproval now user 2 true c pr) = true
      · by_cases hg : (generate_purchase_order env).generated = true <;>
          simp [applyDecision, h1, hg]
      · simp [applyDecision, h1, hst]
    · simp [applyDecision, hl, hst]

/-! ## Characterization of successful endpoint calls -/

theorem create_request_ok {env : PipelineEnv} {uid : Nat} {d : CreateData}
    {pr : PurchaseRequest} (h : create_request env uid d = Except.ok pr) :
    pr.status = RequestStatus.pending ∧ pr.approvals = [] ∧
    pr.items = d.items.map (fun i =>
      RequestItem.saveRow i.itemName i.description i.quantity i.unitPrice) ∧
    pr.approvedAt = none ∧ pr.rejectedAt = none := by
  unfold create_request at h
  by_cases h1 : d.amount = 0
  · simp [h1] at h
  · by_cases h2 : d.items.any (fun i => i.quantity == 0 || i.unitPrice == 0) = true
    · simp [h1, h2] at h
    · cases hp : d.proforma with
      | none =>
        simp [h1, h2, hp] at h
        subst h
        exact ⟨rfl, rfl, rfl, rfl, rfl⟩
      | some f =>
        simp [h1, h2, hp] at h
        subst h
        exact ⟨rfl, rfl, rfl, rfl, rfl⟩

theorem update_request_ok {u : UserT} {d : UpdateData}
    {pr pr' : PurchaseRequest} (h : update_request u d pr = Except.ok pr') :
    pr'.status = pr.status ∧ pr'.approvals = pr.approvals ∧
    pr'.approvedAt = pr.approvedAt ∧ pr'.rejectedAt = pr.rejectedAt ∧
    (pr'.items = pr.items ∨ ∃ its, d.items = some its ∧
      pr'.items = its.map (fun i =>
        RequestItem.saveRow i.itemName i.description i.quantity i.unitPrice)) := by
  unfold update_request at h
  split at h
  · simp at h
  · split at h
    · simp at h
    · split at h
      · simp at h
      · split at h
        · simp at h
        · split at h
          next its hi =>
            injection h with h
            subst h
            exact ⟨rfl, rfl, rfl, rfl, Or.inr ⟨its, hi, rfl⟩⟩
          next hi =>
            injection h with h
            subst h
            exact ⟨rfl, rfl, rfl, rfl, Or.inl rfl⟩

theorem submit_receipt_ok {env : PipelineEnv} {f : UploadedFile}
    {pr pr' : PurchaseRequest} (h : submit_receipt env f pr = Except.ok pr') :
    pr'.status = pr.status ∧ pr'.approvals = pr.approvals ∧
    pr'.approvedAt = pr.approvedAt ∧ pr'.rejectedAt = pr.rejectedAt ∧
    pr'.items = pr.items ∧ pr'.receipt = some f.name ∧
    pr'.purchaseOrderMetadata = pr.purchaseOrderMetadata := by
  unfold submit_receipt at h
  split at h
  · simp at h
  · split at h
    · simp at h
    · split at h
      · simp at h
      · split at h
        next po hpo =>
          injection h with h
          subst h
          exact ⟨rfl, rfl, rfl, rfl, rfl, rfl, rfl⟩
        next hpo =>
          injection h with h
          subst h
          exact ⟨rfl, rfl, rfl, rfl, rfl, rfl, rfl⟩

theorem find_append_of_none {α : Type} (p : α → Bool) (l₂ : List α) :
    ∀ l : List α, l.find? p = none → (l ++ l₂).find? p = l₂.find? p := by
  intro l
  induction l with
  | nil => intro _; rfl
  | cons x xs ih =>
    intro h
    cases hx : p x with
    | true => simp [List.find?, hx] at h
    | false =>
      have hxs : xs.find? p = none := by simpa [List.find?, hx] using h
      simp [List.find?, hx, ih hxs]

theorem roleLevel_cases {r : Role} {lvl : Nat} (h : roleLevel r = some lvl) :
    lvl = 1 ∨ lvl = 2 := by
  cases r with
  | approverL1 => left; simpa [roleLevel, eq_comm] using h
  | approverL2 => right; simpa [roleLevel, eq_comm] using h
  | staff => simp [roleLevel] at h
  | finance => simp [roleLevel] at h

theorem submitDecision_ok {env : PipelineEnv} {now : Nat} {u : UserT}
    {b : Bool} {c : String} {pr pr' : PurchaseRequest}
    (h : submitDecision env now u b c pr = Except.ok pr') :
    IsAnyApprover u = true ∧ pr.status = RequestStatus.pending ∧
    ∃ r lvl, u.profile = some r ∧ roleLevel r = some lvl ∧
      priorDecision pr lvl = none ∧
      (lvl = 2 → hasLevel1Approved pr = true) ∧
      pr' = applyDecision env now u lvl b c pr := by
  unfold submitDecision at h
  by_cases hP : IsAnyApprover u = true
  · rw [if_pos hP] at h
    unfold approve_request at h
    by_cases hs : pr.status = RequestStatus.pending
    · rw [if_neg (by simp [hs])] at h
      cases hprof : u.profile with
      | none => simp [hprof] at h
      | some r =>
        simp only [hprof] at h
        cases hrl : roleLevel r with
        | none => simp [hrl] at h
        | some lvl =>
          simp only [hrl] at h
          cases hpd : priorDecision pr lvl with
          | some prior => simp [hpd] at h
          | none =>
            simp only [hpd] at h
            by_cases hlo : lvl = 2 ∧ hasLevel1Approved pr = false
            · rw [if_pos hlo] at h
              simp at h
            · rw [if_neg hlo] at h
              have hpr' : pr' = applyDecision env now u lvl b c pr := by
                simpa [eq_comm] using h
              refine ⟨hP, hs, r, lvl, rfl, hrl, hpd, ?_, hpr'⟩
              intro h2
              cases hL1 : hasLevel1Approved pr with
              | false => exact absurd ⟨h2, hL1⟩ hlo
              | true => rfl
    · rw [if_pos (by simp [hs])] at h
      simp at h
  · simp [hP] at h

/-! ## Outcome of an endpoint call is independent of the pipeline -/

theorem create_request_env_isOk (env env' : PipelineEnv) (uid : Nat)
    (d : CreateData) :
    isOkE (create_request env uid d) = isOkE (create_request env' uid d) := by
  unfold create_request
  by_cases h1 : d.amount = 0
  · simp [h1, isOkE]
  · by_cases h2 : d.items.any (fun i => i.quantity == 0 || i.unitPrice == 0) = true
    · simp [h1, h2, isOkE]
    · cases hp : d.proforma <;> simp [h1, h2, hp, isOkE]

theorem submitDecision_env_isOk (env env' : PipelineEnv) (now : Nat) (u : UserT)
    (b : Bool) (c : String) (pr : PurchaseRequest) :
    isOkE (submitDecision env now u b c pr) =
      isOkE (submitDecision env' now u b c pr) := by
  unfold submitDecision approve_request
  by_cases hP : IsAnyApprover u = true
  · by_cases hs : pr.status ≠ RequestStatus.pending
    · simp [hP, hs, isOkE]
    · cases hprof : u.profile with
      | none => simp [hP, hs, hprof, isOkE]
      | some r =>
        cases hrl : roleLevel r with
        | none => simp [hP, hs, hprof, hrl, isOkE]
        | some lvl =>
          cases hpd : priorDecision pr lvl with
          | some prior => simp [hP, hs, hprof, hrl, hpd, isOkE]
          | none =>
            by_cases hlo : lvl = 2 ∧ hasLevel1Approved pr = false <;>
              simp [hP, hs, hprof, hrl, hpd, hlo, isOkE]
  · simp [hP, isOkE]

theorem submit_receipt_env_isOk (env env' : PipelineEnv) (f : UploadedFile)
    (pr : PurchaseRequest) :
    isOkE (submit_receipt env f pr) = isOkE (submit_receipt env' f pr) := by
  unfold submit_receipt
  by_cases h1 : pr.status ≠ RequestStatus.approved
  · simp [h1, isOkE]
  · by_cases h2 : f.size > 10485760
    · simp [h1, h2, isOkE]
    · by_cases h3 : f.contentType ∈ allowedReceiptTypes
      · cases hpo : pr.purchaseOrderMetadata <;> simp [h1, h2, h3, hpo, isOkE]
      · simp [h1, h2, h3, isOkE]

/-! ## Failure tagging of the pipeline stages -/

theorem process_proforma_failure_tagged (env : PipelineEnv) (ct : String)
    (h : (process_proforma_upload env ct).extracted = false) :
    (process_proforma_upload env ct).error.isSome = true := by
  unfold process_proforma_upload extract_proforma_metadata_with_ai at h ⊢
  by_cases ht : extract_text_from_file env ct = ""
  · simp [ht]
  · by_cases hc : env.clientConfigured = false
    · simp [ht, hc]
    · cases hai : env.proformaAI with
      | ok v => simp [ht, hc, hai] at h
      | error e => simp [ht, hc, hai]

theorem generate_po_failure_tagged (env : PipelineEnv)
    (h : (generate_purchase_order env).generated = false) :
    (generate_purchase_order env).error.isSome = true := by
  unfold generate_purchase_order at h ⊢
  by_cases hc : env.clientConfigured = false
  · simp [hc]
  · cases hai : env.poAI with
    | ok v => simp [hc, hai] at h
    | error e => simp [hc, hai]

theorem process_receipt_failure_tagged (env : PipelineEnv) (ct : String)
    (h : (process_receipt_upload env ct).validated = false) :
    (process_receipt_upload env ct).error.isSome = true := by
  unfold process_receipt_upload validate_receipt_against_po at h ⊢
  by_cases ht : extract_text_from_file env ct = ""
  · simp [ht]
  · by_cases hc : env.clientConfigured = false
    · simp [ht, hc]
    · cases hai : env.receiptAI with
      | ok v => simp [ht, hc, hai] at h
      | error e => simp [ht, hc, hai]

/-! ## Claims -/

/-- C1: every endpoint mutation either leaves the status alone or moves a
Pending request to Approved or Rejected; and on a non-Pending request
every further decision call answers the not-pending error and leaves the
persisted request unchanged. -/
theorem approval_status_transitions :
    (∀ pr pr', Step pr pr' →
      pr'.status = pr.status ∨
      (pr.status = RequestStatus.pending ∧
        (pr'.status = RequestStatus.approved ∨
         pr'.status = RequestStatus.rejected))) ∧
    (∀ env now u b c pr, pr.status ≠ RequestStatus.pending →
      approve_request env now u b c pr = Except.error ApproveError.notPending ∧
      submitDecisionDB env now u b c pr = pr) := by
  constructor
  · intro pr pr' hstep
    cases hstep with
    | decide env now user approved comments h =>
      obtain ⟨hP, hs, r, lvl, hprof, hrl, hpd, hL1, hpr'⟩ := submitDecision_ok h
      rcases applyDecision_status_cases env now user lvl approved comments pr with
        hc | hc | hc
      · exact Or.inr ⟨hs, Or.inr (by rw [hpr']; exact hc)⟩
      · exact Or.inr ⟨hs, Or.inl (by rw [hpr']; exact hc)⟩
      · exact Or.inl (by rw [hpr']; exact hc)
    | edit user d h => exact Or.inl (update_request_ok h).1
    | receipt env f h => exact Or.inl (submit_receipt_ok h).1
  · intro env now u b c pr hns
    have hne : approve_request env now u b c pr =
        Except.error ApproveError.notPending := by
      unfold approve_request
      rw [if_pos hns]
    refine ⟨hne, ?_⟩
    unfold submitDecisionDB submitDecision
    by_cases hP : IsAnyApprover u = true
    · rw [if_pos hP, hne]
    · rw [if_neg (by simp [hP])]

/-- Witness for C1: the level-1 approval step on the demonstration request,
and a decision call on the already-approved request. -/
theorem approval_status_transitions_witness :
    (prL1Approved.status = prPending.status ∨
      (prPending.status = RequestStatus.pending ∧
        (prL1Approved.status = RequestStatus.approved ∨
         prL1Approved.status = RequestStatus.rejected))) ∧
    (approve_request envDown 3 approver1 true "" prApprovedNoPO =
        Except.error ApproveError.notPending ∧
      submitDecisionDB envDown 3 approver1 true "" prApprovedNoPO =
        prApprovedNoPO) := by
  constructor
  · exact approval_status_transitions.1 prPending prL1Approved
      (Step.decide envDown 1 approver1 true "ok" (by decide))
  · exact approval_status_transitions.2 envDown 3 approver1 true "" prApprovedNoPO
      (by decide)

/-- C4: a decision call that succeeds with decision Rejected, at whichever
level the caller acts, makes the request Rejected and sets rejected_at. -/
theorem rejection_always_terminal (env : PipelineEnv) (now : Nat) (u : UserT)
    (c : String) (pr pr' : PurchaseRequest)
    (h : submitDecision env now u false c pr = Except.ok pr') :
    pr'.status = RequestStatus.rejected ∧ pr'.rejectedAt = some now := by
  obtain ⟨hP, hs, r, lvl, hprof, hrl, hpd, hL1, hpr'⟩ := submitDecision_ok h
  rw [hpr', applyDecision_reject]
  exact ⟨rfl, rfl⟩

/-- Witness for C4: the level-1 rejection of the demonstration request. -/
theorem rejection_always_terminal_witness :
    prRejected.status = RequestStatus.rejected ∧ prRejected.rejectedAt = some 1 :=
  rejection_always_terminal envDown 1 approver1 "no" prPending prRejected (by decide)

/-- C5: in every reachable request state, Approved implies approved_at is
set with approving rows at both levels, and Rejected implies rejected_at
is set with at least one rejecting row. -/
theorem reachable_status_invariant (pr : PurchaseRequest) (h : Reachable pr) :
    statusInvariant pr := by
  induction h with
  | @created env uid d p hc =>
    obtain ⟨hs, _, _, _, _⟩ := create_request_ok hc
    constructor
    · intro habs; rw [hs] at habs; simp at habs
    · intro habs; rw [hs] at habs; simp at habs
  | @stepped p0 p1 hre hstep ih =>
    cases hstep with
    | decide env now user approved comments hd =>
      obtain ⟨hP, hs, r, lvl, hprof, hrl, hpd, hL1, hpr'⟩ := submitDecision_ok hd
      subst hpr'
      cases approved with
      | false =>
        obtain ⟨hst, hrj⟩ := applyDecision_reject_status env now user lvl comments p0
        constructor
        · intro habs; rw [hst] at habs; simp at habs
        · intro _
          refine ⟨by simp [hrj], ?_⟩
          rw [applyDecision_approvals]
          have hany := setApproval_any_decided now user lvl false comments p0
          rcases List.any_eq_true.mp hany with ⟨a, ham, hpa⟩
          have hpa' : a.approverLevel = lvl ∧ a.approved = some false := by
            simpa using hpa
          exact List.any_eq_true.mpr ⟨a, ham, by simp [hpa'.2]⟩
      | true =>
        by_cases hl : lvl = 2
        · subst hl
          have h2 : hasLevel1Approved p0 = true := hL1 rfl
          have h1' : hasLevel1Approved (setApproval now user 2 true comments p0) = true := by
            rw [hasLevel1Approved_setApproval_two]
            exact h2
          obtain ⟨hstat, happ⟩ := applyDecision_approve_l2 env now user comments p0 h1'
          constructor
          · intro _
            refine ⟨by simp [happ], ?_, ?_⟩
            · rw [applyDecision_approvals]
              simpa [hasLevel1Approved] using h1'
            · rw [applyDecision_approvals]
              exact setApproval_any_decided now user 2 true comments p0
          · intro habs
            rw [hstat] at habs
            simp at habs
        · have hl1 : lvl = 1 := (roleLevel_cases hrl).resolve_right hl
          subst hl1
          rw [applyDecision_approve_l1]
          have hst := (setApproval_fields now user 1 true comments p0).1
          constructor
          · intro habs; rw [hst, hs] at habs; simp at habs
          · intro habs; rw [hst, hs] at habs; simp at habs
    | edit user d hu =>
      obtain ⟨hs, ha, haa, hra, _⟩ := update_request_ok hu
      obtain ⟨ih1, ih2⟩ := ih
      constructor
      · intro habs
        rw [hs] at habs
        obtain ⟨x, y, z⟩ := ih1 habs
        exact ⟨by rw [haa]; exact x, by rw [ha]; exact y, by rw [ha]; exact z⟩
      · intro habs
        rw [hs] at habs
        obtain ⟨x, y⟩ := ih2 habs
        exact ⟨by rw [hra]; exact x, by rw [ha]; exact y⟩
    | receipt env f hrc =>
      obtain ⟨hs, ha, haa, hra, _, _, _⟩ := submit_receipt_ok hrc
      obtain ⟨ih1, ih2⟩ := ih
      constructor
      · intro habs
        rw [hs] at habs
        obtain ⟨x, y, z⟩ := ih1 habs
        exact ⟨by rw [haa]; exact x, by rw [ha]; exact y, by rw [ha]; exact z⟩
      · intro habs
        rw [hs] at habs
        obtain ⟨x, y⟩ := ih2 habs
        exact ⟨by rw [hra]; exact x, by rw [ha]; exact y⟩

/-- Witness for C5: the fully approved demonstration request is reachable
and satisfies the Approved side of the invariant. -/
theorem reachable_status_invariant_witness :
    prApprovedNoPO.approvedAt ≠ none ∧
    prApprovedNoPO.approvals.any
      (fun a => a.approverLevel == 1 && a.approved == some true) = true ∧
    prApprovedNoPO.approvals.any
      (fun a => a.approverLevel == 2 && a.approved == some true) = true :=
  (reachable_status_invariant prApprovedNoPO
    (Reachable.stepped
      (Reachable.stepped (@Reachable.created envDown 1 demoCreate prPending (by decide))
        (@Step.decide envDown 1 approver1 true "ok" prPending prL1Approved (by decide)))
      (@Step.decide envDown 2 approver2 true "go" prL1Approved prApprovedNoPO
        (by decide)))).1 (by decide)

/-- C2 (amended): on a Pending request with no decision recorded at level
2, a level-2 caller's decision submission without a recorded level-1
Approved always fails with the level-order error; on a non-Pending
request the submission fails with the not-pending error instead. -/
theorem level_order_enforced (env : PipelineEnv) (now : Nat) (u : UserT)
    (b : Bool) (c : String) (pr : PurchaseRequest)
    (hprof : u.profile = some Role.approverL2) :
    (pr.status = RequestStatus.pending → priorDecision pr 2 = none →
      hasLevel1Approved pr = false →
      submitDecision env now u b c pr =
        Except.error ApproveError.levelOrderViolation) ∧
    (pr.status ≠ RequestStatus.pending →
      submitDecision env now u b c pr = Except.error ApproveError.notPending) := by
  have hP : IsAnyApprover u = true := by simp [IsAnyApprover, hprof]
  constructor
  · intro hs hpd hL1
    unfold submitDecision approve_request
    rw [if_pos hP, if_neg (by simp [hs])]
    simp only [hprof, roleLevel, hpd]
    rw [if_pos ⟨trivial, hL1⟩]
  · intro hns
    unfold submitDecision approve_request
    rw [if_pos hP, if_pos hns]

/-- Witness for C2: a level-2 approval on the freshly created request,
before any level-1 decision, fails with the level-order error. -/
theorem level_order_enforced_witness :
    submitDecision envDown 1 approver2 true "" prPending =
      Except.error ApproveError.levelOrderViolation :=
  (level_order_enforced envDown 1 approver2 true "" prPending (by decide)).1
    (by decide) (by decide) (by decide)

/-- Counterexample for C2 as frozen: on the rejected request, which has no
level-1 Approved approval, a level-2 submission fails with the
not-pending error, not with the level-order error, so the failure kind is
not independent of the request's status. -/
theorem level_order_counterexample :
    submitDecision envDown 3 approver2 true "" prRejected =
      Except.error ApproveError.notPending ∧
    submitDecision envDown 3 approver2 true "" prRejected ≠
      Except.error ApproveError.levelOrderViolation := by decide

/-- C3 (amended): the set of approval levels on a reachable request is
duplicate-free (at most one Approval row per level, ever); and a decision
call on a Pending request at a level whose row already holds a decision
fails with the already-decided error naming the prior decision and the
level, leaving the persisted request unchanged. -/
theorem unique_approval_and_already_decided :
    (∀ pr, Reachable pr → (levelSet pr).Nodup) ∧
    (∀ env now u b c pr r lvl prior,
      pr.status = RequestStatus.pending → u.profile = some r →
      roleLevel r = some lvl → priorDecision pr lvl = some prior →
      submitDecision env now u b c pr =
        Except.error (ApproveError.alreadyDecided prior lvl) ∧
      submitDecisionDB env now u b c pr = pr) := by
  constructor
  · intro pr h
    induction h with
    | @created env uid d p hc =>
      rw [levelSet, (create_request_ok hc).2.1]
      exact List.nodup_nil
    | @stepped p0 p1 hre hstep ih =>
      cases hstep with
      | decide env now user approved comments hd =>
        obtain ⟨hP, hs, r, lvl, hprof, hrl, hpd, hL1, hpr'⟩ := submitDecision_ok hd
        subst hpr'
        have hA : levelSet (applyDecision env now user lvl approved comments p0) =
            levelSet (setApproval now user lvl approved comments p0) := by
          unfold levelSet
          rw [applyDecision_approvals]
        rw [hA]
        cases hf : findApproval p0 lvl with
        | some a =>
          rw [setApproval_levels_update hf]
          exact ih
        | none =>
          rw [setApproval_levels_append hf]
          have hnm : lvl ∉ levelSet p0 := by
            intro hmem
            rcases List.mem_map.mp hmem with ⟨a, ham, hla⟩
            have hnot := List.find?_eq_none.mp hf a ham
            exact hnot (by simp [hla])
          have hperm := List.perm_append_singleton lvl (levelSet p0)
          rw [hperm.nodup_iff]
          exact List.nodup_cons.mpr ⟨hnm, ih⟩
      | edit user d hu =>
        have he : levelSet p1 = levelSet p0 := by
          unfold levelSet
          rw [(update_request_ok hu).2.1]
        rw [he]
        exact ih
      | receipt env f hrc =>
        have he : levelSet p1 = levelSet p0 := by
          unfold levelSet
          rw [(submit_receipt_ok hrc).2.1]
        rw [he]
        exact ih
  · intro env now u b c pr r lvl prior hs hprof hrl hpd
    have hP : IsAnyApprover u = true := by
      cases r with
      | approverL1 => simp [IsAnyApprover, hprof]
      | approverL2 => simp [IsAnyApprover, hprof]
      | staff => simp [roleLevel] at hrl
      | finance => simp [roleLevel] at hrl
    have he : submitDecision env now u b c pr =
        Except.error (ApproveError.alreadyDecided prior lvl) := by
      unfold submitDecision approve_request
      rw [if_pos hP, if_neg (by simp [hs])]
      simp only [hprof, hrl, hpd]
    refine ⟨he, ?_⟩
    unfold submitDecisionDB
    rw [he]

/-- Witness for C3: the request after a level-1 approval is reachable with
duplicate-free levels, and a second level-1 decision on it fails with the
already-decided error naming the prior approval. -/
theorem unique_approval_witness :
    (levelSet prL1Approved).Nodup ∧
    (submitDecision envDown 3 approver1 true "dup" prL1Approved =
        Except.error (ApproveError.alreadyDecided true 1) ∧
      submitDecisionDB envDown 3 approver1 true "dup" prL1Approved =
        prL1Approved) := by
  constructor
  · exact unique_approval_and_already_decided.1 prL1Approved
      (Reachable.stepped (@Reachable.created envDown 1 demoCreate prPending (by decide))
        (@Step.decide envDown 1 approver1 true "ok" prPending prL1Approved (by decide)))
  · exact unique_approval_and_already_decided.2 envDown 3 approver1 true "dup"
      prL1Approved Role.approverL1 1 true (by decide) (by decide) (by decide) (by decide)

/-- Counterexample for C3 as frozen: the rejected request holds a decided
level-1 row, yet a further level-1 decision call fails with the
not-pending error, not with the already-decided error naming the prior
rejection. -/
theorem already_decided_counterexample :
    submitDecision envDown 3 approver1 true "again" prRejected =
      Except.error ApproveError.notPending ∧
    submitDecision envDown 3 approver1 true "again" prRejected ≠
      Except.error (ApproveError.alreadyDecided false 1) := by decide

/-- C6 (amended): whether each triggering operation succeeds never
depends on the pipeline environment; creation stores the (possibly
failure-tagged) proforma result, receipt submission with stored PO
metadata stores the (possibly failure-tagged) validation result, and
every failed stage self-tags with an error — but a failed PO generation
stores nothing: the purchase-order metadata field is only written on a
successful generation and otherwise stays as it was. -/
theorem extraction_failures_nonfatal :
    (∀ env env' uid d,
      isOkE (create_request env uid d) = isOkE (create_request env' uid d)) ∧
    (∀ env uid d f pr, create_request env uid d = Except.ok pr →
      d.proforma = some f →
      pr.proformaMetadata = some (process_proforma_upload env f.contentType)) ∧
    (∀ env ct, (process_proforma_upload env ct).extracted = false →
      (process_proforma_upload env ct).error.isSome = true) ∧
    (∀ env env' now u b c pr, isOkE (submitDecision env now u b c pr) =
      isOkE (submitDecision env' now u b c pr)) ∧
    (∀ env now u b c pr pr', submitDecision env now u b c pr = Except.ok pr' →
      (generate_purchase_order env).generated = false →
      pr'.purchaseOrderMetadata = pr.purchaseOrderMetadata) ∧
    (∀ env, (generate_purchase_order env).generated = false →
      (generate_purchase_order env).error.isSome = true) ∧
    (∀ env env' f pr,
      isOkE (submit_receipt env f pr) = isOkE (submit_receipt env' f pr)) ∧
    (∀ env f pr pr' po, submit_receipt env f pr = Except.ok pr' →
      pr.purchaseOrderMetadata = some po →
      pr'.receiptValidation = some (process_receipt_upload env f.contentType)) ∧
    (∀ env ct, (process_receipt_upload env ct).validated = false →
      (process_receipt_upload env ct).error.isSome = true) := by
  refine ⟨create_request_env_isOk, ?_, process_proforma_failure_tagged,
    submitDecision_env_isOk, ?_, generate_po_failure_tagged,
    submit_receipt_env_isOk, ?_, process_receipt_failure_tagged⟩
  · intro env uid d f pr h hpf
    unfold create_request at h
    by_cases h1 : d.amount = 0
    · simp [h1] at h
    · by_cases h2 : d.items.any (fun i => i.quantity == 0 || i.unitPrice == 0) = true
      · simp [h1, h2] at h
      · simp [h1, h2, hpf] at h
        subst h
        rfl
  · intro env now u b c pr pr' h hg
    obtain ⟨hP, hs, r, lvl, hprof, hrl, hpd, hL1, hpr'⟩ := submitDecision_ok h
    rw [hpr']
    exact applyDecision_po_failure env now u lvl b c pr hg
  · intro env f pr pr' po h hpo
    unfold submit_receipt at h
    by_cases h1 : pr.status ≠ RequestStatus.approved
    · simp [h1] at h
    · by_cases h2 : f.size > 10485760
      · simp [h1, h2] at h
      · by_cases h3 : f.contentType ∈ allowedReceiptTypes
        · simp [h1, h2, h3, hpo] at h
          subst h
          rfl
        · simp [h1, h2, h3] at h

/-- Witness for C6: creation with a proforma under the broken environment
commits and stores the failure tag; a level-2 approval under the broken
environment commits and leaves the PO metadata field untouched. -/
theorem extraction_failures_nonfatal_witness :
    prProforma.proformaMetadata =
      some (process_proforma_upload envDown "application/pdf") ∧
    prApprovedNoPO.purchaseOrderMetadata = prL1Approved.purchaseOrderMetadata ∧
    (process_proforma_upload envDown "application/pdf").error.isSome = true := by
  refine ⟨?_, ?_, ?_⟩
  · exact extraction_failures_nonfatal.2.1 envDown 1 demoCreateP proformaFile
      prProforma (by decide) (by decide)
  · exact extraction_failures_nonfatal.2.2.2.2.1 envDown 2 approver2 true "go"
      prL1Approved prApprovedNoPO (by decide) (by decide)
  · exact extraction_failures_nonfatal.2.2.1 envDown "application/pdf" (by decide)

/-- Counterexample for C6 as frozen: the level-2 approval under the broken
environment commits the Approved transition, the PO stage fails with a
tagged result, yet purchase_order_metadata does not carry that tagged
object — it is left empty. -/
theorem po_failure_not_stored_counterexample :
    submitDecision envDown 2 approver2 true "go" prL1Approved =
      Except.ok prApprovedNoPO ∧
    (generate_purchase_order envDown).generated = false ∧
    (generate_purchase_order envDown).error.isSome = true ∧
    prApprovedNoPO.status = RequestStatus.approved ∧
    prApprovedNoPO.purchaseOrderMetadata = none := by decide

/-- C7 (amended): a receipt submission on a non-Approved request fails
with the status-conflict error and changes nothing; on an Approved
request with no stored PO metadata a valid receipt is accepted and
stored, but the validation step is skipped entirely: receipt_validation
is left exactly as it was. -/
theorem receipt_requires_approved (env : PipelineEnv) (f : UploadedFile)
    (pr : PurchaseRequest) :
    (pr.status ≠ RequestStatus.approved →
      submit_receipt env f pr = Except.error ReceiptError.notApproved ∧
      submitReceiptDB env f pr = pr) ∧
    (pr.status = RequestStatus.approved → pr.purchaseOrderMetadata = none →
      f.size ≤ 10485760 → f.contentType ∈ allowedReceiptTypes →
      submit_receipt env f pr = Except.ok { pr with receipt := some f.name }) := by
  constructor
  · intro hna
    have he : submit_receipt env f pr = Except.error ReceiptError.notApproved := by
      unfold submit_receipt
      rw [if_pos hna]
    refine ⟨he, ?_⟩
    unfold submitReceiptDB
    rw [he]
  · intro hap hpo hsz hct
    unfold submit_receipt
    rw [if_neg (by simp [hap]), if_neg (by omega), if_neg (not_not_intro hct)]
    simp only [hpo]

/-- Witness for C7: a receipt on the pending request is refused with
nothing stored; a receipt on the approved request with no PO metadata is
accepted. -/
theorem receipt_requires_approved_witness :
    (submit_receipt envUp demoReceipt prPending =
        Except.error ReceiptError.notApproved ∧
      submitReceiptDB envUp demoReceipt prPending = prPending) ∧
    submit_receipt envUp demoReceipt prApprovedNoPO =
      Except.ok { prApprovedNoPO with receipt := some "receipt.pdf" } := by
  constructor
  · exact (receipt_requires_approved envUp demoReceipt prPending).1 (by decide)
  · exact (receipt_requires_approved envUp demoReceipt prApprovedNoPO).2
      (by decide) (by decide) (by decide) (by decide)

/-- Counterexample for C7 as frozen: on the approved request whose PO
generation failed, the receipt is accepted even under a fully working
environment, but no receipt validation is attempted or stored —
receipt_validation stays empty instead of carrying a failure-tagged
result. -/
theorem receipt_validation_skipped_counterexample :
    prApprovedNoPO.purchaseOrderMetadata = none ∧
    submit_receipt envUp demoReceipt prApprovedNoPO =
      Except.ok { prApprovedNoPO with receipt := some "receipt.pdf" } ∧
    ({ prApprovedNoPO with receipt := some "receipt.pdf" } :
      PurchaseRequest).receiptValidation = none := by decide

/-- C8: every item written by a create, by an update (wholesale
replacement included), or present in any reachable state satisfies
`total_price = quantity * unit_price`; prices are integer cents, so the
two-decimal product is exact. -/
theorem item_total_price_invariant :
    (∀ env uid d pr, create_request env uid d = Except.ok pr →
      ∀ it ∈ pr.items, it.totalPrice = it.quantity * it.unitPrice) ∧
    (∀ u d pr pr', update_request u d pr = Except.ok pr' →
      (∀ it ∈ pr.items, it.totalPrice = it.quantity * it.unitPrice) →
      ∀ it ∈ pr'.items, it.totalPrice = it.quantity * it.unitPrice) ∧
    (∀ pr, Reachable pr →
      ∀ it ∈ pr.items, it.totalPrice = it.quantity * it.unitPrice) := by
  have hmap : ∀ (its : List ItemData) it, it ∈ its.map (fun i =>
      RequestItem.saveRow i.itemName i.description i.quantity i.unitPrice) →
      it.totalPrice = it.quantity * it.unitPrice := by
    intro its it hmem
    rcases List.mem_map.mp hmem with ⟨i, _, hi⟩
    rw [← hi]
    rfl
  refine ⟨?_, ?_, ?_⟩
  · intro env uid d pr h it hit
    rw [(create_request_ok h).2.2.1] at hit
    exact hmap d.items it hit
  · intro u d pr pr' h hprev it hit
    rcases (update_request_ok h).2.2.2.2 with hsame | ⟨its, hd, hrepl⟩
    · rw [hsame] at hit
      exact hprev it hit
    · rw [hrepl] at hit
      exact hmap its it hit
  · intro pr h
    induction h with
    | @created env uid d p hc =>
      intro it hit
      rw [(create_request_ok hc).2.2.1] at hit
      exact hmap d.items it hit
    | @stepped p0 p1 hre hstep ih =>
      cases hstep with
      | decide env now user approved comments hd =>
        obtain ⟨_, _, r, lvl, _, _, _, _, hpr'⟩ := submitDecision_ok hd
        subst hpr'
        intro it hit
        rw [applyDecision_items] at hit
        exact ih it hit
      | edit user d hu =>
        intro it hit
        rcases (update_request_ok hu).2.2.2.2 with hsame | ⟨its, hdi, hrepl⟩
        · rw [hsame] at hit
          exact ih it hit
        · rw [hrepl] at hit
          exact hmap its it hit
      | receipt env f hrc =>
        intro it hit
        rw [(submit_receipt_ok hrc).2.2.2.2.1] at hit
        exact ih it hit

/-- Witness for C8: the first created demonstration item, quantity 2 at
10.00, carries total 20.00 (2000 cents). -/
theorem item_total_price_witness :
    (⟨"Laptop", "dev laptop", 2, 1000, 2000⟩ : RequestItem).totalPrice =
      (⟨"Laptop", "dev laptop", 2, 1000, 2000⟩ : RequestItem).quantity *
      (⟨"Laptop", "dev laptop", 2, 1000, 2000⟩ : RequestItem).unitPrice :=
  item_total_price_invariant.1 envDown 1 demoCreate prPending (by decide)
    ⟨"Laptop", "dev laptop", 2, 1000, 2000⟩ (by decide)

/-- C9 (amended): text extraction dispatches application/pdf to the
document-text extractor; image/jpeg, image/png and also image/jpg to the
OCR extractor; every other content type yields empty text; and a raised
extractor error yields empty text instead of propagating. -/
theorem text_extraction_dispatch :
    (∀ env, extract_text_from_file env "application/pdf" =
      extract_text_from_pdf env.pdfExtract) ∧
    (∀ env ct, (ct = "image/jpeg" ∨ ct = "image/png" ∨ ct = "image/jpg") →
      extract_text_from_file env ct = extract_text_from_image env.imageExtract) ∧
    (∀ env ct, ct ≠ "application/pdf" → ct ≠ "image/jpeg" → ct ≠ "image/png" →
      ct ≠ "image/jpg" → extract_text_from_file env ct = "") ∧
    (∀ e, extract_text_from_pdf (Except.error e) = "" ∧
      extract_text_from_image (Except.error e) = "") := by
  refine ⟨?_, ?_, ?_, ?_⟩
  · intro env
    rfl
  · intro env ct h
    rcases h with rfl | rfl | rfl <;> rfl
  · intro env ct h1 h2 h3 h4
    simp [extract_text_from_file, h1, h2, h3, h4]
  · intro e
    exact ⟨rfl, rfl⟩

/-- Witness for C9: a png upload goes to OCR, and an unhandled content
type yields empty text. -/
theorem text_extraction_dispatch_witness :
    extract_text_from_file envUp "image/png" =
      extract_text_from_image envUp.imageExtract ∧
    extract_text_from_file envUp "text/plain" = "" := by
  constructor
  · exact text_extraction_dispatch.2.1 envUp "image/png" (Or.inr (Or.inl rfl))
  · exact text_extraction_dispatch.2.2.1 envUp "text/plain"
      (by decide) (by decide) (by decide) (by decide)

/-- Counterexample for C9 as frozen: the content type image/jpg is
neither image/jpeg nor image/png, yet it is dispatched to OCR and can
yield non-empty text instead of the empty text the claim requires. -/
theorem jpg_dispatch_counterexample :
    extract_text_from_file envJpg "image/jpg" = "hello" ∧
    extract_text_from_file envJpg "image/jpg" ≠ "" := by decide

/-- C10: a caller whose profile is missing or whose role is neither
approver level is refused by the permission layer with nothing changed;
and on any successful decision the level acted on is exactly the one the
caller's role maps to — that level's row now holds the submitted
decision and every other level's row is untouched. -/
theorem approver_level_from_role :
    (∀ env now u b c pr,
      (u.profile = none ∨ u.profile = some Role.staff ∨
        u.profile = some Role.finance) →
      submitDecision env now u b c pr =
        Except.error ApproveError.permissionDenied ∧
      submitDecisionDB env now u b c pr = pr) ∧
    (∀ env now u b c pr pr' r lvl,
      submitDecision env now u b c pr = Except.ok pr' →
      u.profile = some r → roleLevel r = some lvl →
      priorDecision pr' lvl = some b ∧
      ∀ l', l' ≠ lvl → findApproval pr' l' = findApproval pr l') := by
  constructor
  · intro env now u b c pr hrole
    have hP : IsAnyApprover u = false := by
      rcases hrole with h | h | h <;> simp [IsAnyApprover, h]
    have he : submitDecision env now u b c pr =
        Except.error ApproveError.permissionDenied := by
      unfold submitDecision
      rw [if_neg (by simp [hP])]
    refine ⟨he, ?_⟩
    unfold submitDecisionDB
    rw [he]
  · intro env now u b c pr pr' r lvl h hprof hrl
    obtain ⟨hP, hs, r0, lvl0, hprof0, hrl0, hpd, hL1, hpr'⟩ := submitDecision_ok h
    have hr : r0 = r := Option.some.inj (hprof0.symm.trans hprof)
    have hlvl : lvl0 = lvl := by
      rw [hr] at hrl0
      exact Option.some.inj (hrl0.symm.trans hrl)
    rw [hlvl] at hpr' hpd
    subst hpr'
    constructor
    · unfold priorDecision findApproval
      rw [applyDecision_approvals]
      cases hf : findApproval pr lvl with
      | some a =>
        simp only [setApproval, hf]
        have hf' : pr.approvals.find? (fun x => x.approverLevel == lvl) = some a := hf
        have hself := updateFirst_find_self
          (fun x => x.approverLevel == lvl)
          (fun x =>
            { x with approved := some b, comments := c, reviewedAt := some now })
          (fun x hx => hx) pr.approvals a hf'
        rw [hself]
      | none =>
        simp only [setApproval, hf]
        rw [find_append_of_none _ _ _ hf]
        simp [List.find?]
    · intro l' hl'
      unfold findApproval
      rw [applyDecision_approvals]
      cases hf : findApproval pr lvl with
      | some a =>
        simp only [setApproval, hf]
        apply updateFirst_find_other
        intro x hx
        have hxl : x.approverLevel = lvl := by simpa using hx
        constructor
        · simp [hxl, Ne.symm hl']
        · simp [hxl, Ne.symm hl']
      | none =>
        simp only [setApproval, hf]
        exact find_append_singleton_false (by simp [Ne.symm hl']) _

/-- Witness for C10: a staff caller is refused with nothing changed, and
the successful level-1 approval writes level 1 and leaves level 2 alone. -/
theorem approver_level_from_role_witness :
    (submitDecision envDown 5 staffUser true "" prPending =
        Except.error ApproveError.permissionDenied ∧
      submitDecisionDB envDown 5 staffUser true "" prPending = prPending) ∧
    (priorDecision prL1Approved 1 = some true ∧
      findApproval prL1Approved 2 = findApproval prPending 2) := by
  constructor
  · exact approver_level_from_role.1 envDown 5 staffUser true "" prPending
      (Or.inr (Or.inl rfl))
  · have h := approver_level_from_role.2 envDown 1 approver1 true "ok"
      prPending prL1Approved Role.approverL1 1 (by decide) (by decide) (by decide)
    exact ⟨h.1, h.2 2 (by decide)⟩

end SaveAPenny
